import Mathlib

/-!
# Verification of legend-pygeom-hades against its specification

Shallow embedding of the HADES detector-geometry construction package
(`src/pygeomhades`). Python dictionaries (`dbetto.AttrsDict`) are modelled as
structures holding the fields the code reads plus association lists for the
remaining entries; numeric values are modelled as rationals; Python exceptions
become explicit error results.
-/

/- ## Generic dictionary helpers

Python `d[k] = v` (overwrite-or-append) and `d[k]` lookup on the association
lists that stand for the parts of an `AttrsDict` the code does not inspect
field by field. -/

/-- Python dictionary assignment `d[k] = v`: overwrite the first binding of
`k`, else append a new binding. -/
def dictSet {α : Type} (d : List (String × α)) (k : String) (v : α) : List (String × α) :=
  match d with
  | [] => [(k, v)]
  | (k0, v0) :: rest => if k0 = k then (k, v) :: rest else (k0, v0) :: dictSet rest k v

/-- Python dictionary lookup `d[k]` (first binding wins). -/
def dictGet {α : Type} (d : List (String × α)) (k : String) : Option α :=
  match d with
  | [] => none
  | (k0, v0) :: rest => if k0 = k then some v0 else dictGet rest k

theorem dictGet_dictSet_self {α : Type} (d : List (String × α)) (k : String) (v : α) :
    dictGet (dictSet d k v) k = some v := by
  induction d with
  | nil => simp [dictSet, dictGet]
  | cons hd tl ih =>
    obtain ⟨k0, v0⟩ := hd
    by_cases h : k0 = k <;> simp [dictSet, dictGet, h, ih]

theorem dictGet_dictSet_ne {α : Type} (d : List (String × α)) (k k' : String) (v : α)
    (h : k' ≠ k) : dictGet (dictSet d k v) k' = dictGet d k' := by
  induction d with
  | nil => simp [dictSet, dictGet, Ne.symm h]
  | cons hd tl ih =>
    obtain ⟨k0, v0⟩ := hd
    by_cases h0 : k0 = k
    · subst h0
      simp [dictSet, dictGet, Ne.symm h, ih]
    · by_cases h1 : k0 = k' <;> simp [dictSet, dictGet, h0, h1, h, ih]

theorem dictSet_dictSet_same {α : Type} (d : List (String × α)) (k : String) (v w : α) :
    dictSet (dictSet d k v) k w = dictSet d k w := by
  induction d with
  | nil => simp [dictSet]
  | cons hd tl ih =>
    obtain ⟨k0, v0⟩ := hd
    by_cases h : k0 = k <;> simp [dictSet, h, ih]

/- ## Metadata records and `merge_configs` (src/pygeomhades/utils.py, lines 15-36)

The function reads `diode_meta["production"]["enrichment"]["val"]`, writes it
when it is `None`, and assigns `diode_meta[extra_name] = extra_meta`.  All
other content of the record is carried opaquely: sibling entries of the
`enrichment` subdictionary, sibling entries of `production`, further top-level
subdictionaries and further top-level scalar fields. -/

/-- Payload of a metadata subdictionary that the code never inspects. -/
def ExtraMeta : Type := List (String × ℚ)

instance : DecidableEq ExtraMeta := by
  unfold ExtraMeta
  infer_instance

/-- The `production.enrichment` subdictionary: the `val` entry (which may be
`None`) plus its untouched sibling entries. -/
structure EnrichmentRec where
  val : Option ℚ
  fields : List (String × ℚ)
deriving DecidableEq

/-- The `production` subdictionary: its `enrichment` entry plus untouched
sibling entries. -/
structure ProductionRec where
  enrichment : EnrichmentRec
  fields : List (String × ℚ)
deriving DecidableEq

/-- A diode metadata record (`AttrsDict`): the `production` entry, the other
top-level subdictionaries (the slot for `extra_name` lives here), and the
other top-level scalar fields. -/
structure DiodeMeta where
  production : ProductionRec
  subdicts : List (String × ExtraMeta)
  fields : List (String × ℚ)
deriving DecidableEq

/-- `merge_configs` from `src/pygeomhades/utils.py` lines 15-36: if
`production.enrichment.val` is `None` set it to `0.9`, then assign the extra
metadata under the key `extra_name`, and return the (mutated) record. -/
def merge_configs (diode_meta : DiodeMeta) (extra_meta : ExtraMeta)
    (extra_name : String) : DiodeMeta :=
  let m :=
    if diode_meta.production.enrichment.val = none then
      { diode_meta with
        production := { diode_meta.production with
          enrichment := { diode_meta.production.enrichment with val := some (9/10) } } }
    else diode_meta
  { m with subdicts := dictSet m.subdicts extra_name extra_meta }

/-- `merge_configs` mutates `diode_meta` in place and ends with
`return diode_meta`: the post-call state of the argument and the returned
record are one and the same object.  Modelled by explicit state passing: the
first component is the final state of the argument, the second the returned
value. -/
def merge_configs_run (diode_meta : DiodeMeta) (extra_meta : ExtraMeta)
    (extra_name : String) : DiodeMeta × DiodeMeta :=
  let r := merge_configs diode_meta extra_meta extra_name
  (r, r)

/- ## Claims C3 and C10 -/

/-- **C3.** For every dimension record, merging once or twice yields the same
result: a `None` `production.enrichment.val` becomes exactly `0.9` after the
first merge, and a second invocation of the merge on the already-merged record
leaves the whole record (in particular `enrichment.val`) unchanged — the
default is applied exactly once, never double-applied. -/
theorem merge_configs_default_once_idempotent (m : DiodeMeta) (e : ExtraMeta) :
    (m.production.enrichment.val = none →
      (merge_configs m e "hades").production.enrichment.val = some (9/10)) ∧
    merge_configs (merge_configs m e "hades") e "hades" = merge_configs m e "hades" := by
  constructor
  · intro h
    simp [merge_configs, h]
  · rcases hv : m.production.enrichment.val with _ | q <;>
      simp [merge_configs, hv, dictSet_dictSet_same]

/-- Witness for C3 at a concrete record whose enrichment value is absent. -/
theorem merge_configs_default_once_idempotent_witness :
    (merge_configs ⟨⟨⟨none, [("unit", 1)]⟩, []⟩, [], [("mass", 2)]⟩ [("dimensions", 1)]
        "hades").production.enrichment.val = some (9/10) ∧
    merge_configs
        (merge_configs ⟨⟨⟨none, [("unit", 1)]⟩, []⟩, [], [("mass", 2)]⟩ [("dimensions", 1)] "hades")
        [("dimensions", 1)] "hades" =
      merge_configs ⟨⟨⟨none, [("unit", 1)]⟩, []⟩, [], [("mass", 2)]⟩ [("dimensions", 1)] "hades" :=
  ⟨(merge_configs_default_once_idempotent _ _).1 rfl,
   (merge_configs_default_once_idempotent _ _).2⟩

/-- **C10.** `merge_configs` mutates its input record in place and returns that
same record (post-state = returned value); afterwards the entry under the
`extra_name` key equals the supplied extra metadata, `production.enrichment.val`
is non-`None`, and every other field is unchanged: the other top-level scalar
fields and subdictionaries, the other `production` fields, the other
`enrichment` fields, and the enrichment value itself whenever it was already
present. -/
theorem merge_configs_frame_and_return (m : DiodeMeta) (e : ExtraMeta) :
    (merge_configs_run m e "hades").2 = (merge_configs_run m e "hades").1 ∧
    dictGet (merge_configs m e "hades").subdicts "hades" = some e ∧
    (merge_configs m e "hades").production.enrichment.val ≠ none ∧
    (merge_configs m e "hades").fields = m.fields ∧
    (merge_configs m e "hades").production.fields = m.production.fields ∧
    (merge_configs m e "hades").production.enrichment.fields =
      m.production.enrichment.fields ∧
    (∀ k : String, k ≠ "hades" →
      dictGet (merge_configs m e "hades").subdicts k = dictGet m.subdicts k) ∧
    (∀ q : ℚ, m.production.enrichment.val = some q →
      (merge_configs m e "hades").production.enrichment.val = some q) := by
  rcases hv : m.production.enrichment.val with _ | q <;>
    simp [merge_configs_run, merge_configs, hv, dictGet_dictSet_self] <;>
    exact fun k hk => dictGet_dictSet_ne _ _ _ _ hk

/-- Witness for C10 at a concrete record, with the frame condition instantiated
at the key `"calib"` and the preservation condition at the present value `1/2`. -/
theorem merge_configs_frame_and_return_witness :
    dictGet
        (merge_configs ⟨⟨⟨some (1/2), []⟩, [("order", 3)]⟩, [("calib", [("a", 5)])], []⟩
          [("dimensions", 7)] "hades").subdicts "calib" =
      dictGet [("calib", [("a", (5 : ℚ))])] "calib" ∧
    (merge_configs ⟨⟨⟨some (1/2), []⟩, [("order", 3)]⟩, [("calib", [("a", 5)])], []⟩
        [("dimensions", 7)] "hades").production.enrichment.val = some (1/2) :=
  ⟨((merge_configs_frame_and_return
      ⟨⟨⟨some (1/2), []⟩, [("order", 3)]⟩, [("calib", [("a", 5)])], []⟩
      [("dimensions", 7)]).2.2.2.2.2.2.1 "calib" (by decide)),
   ((merge_configs_frame_and_return
      ⟨⟨⟨some (1/2), []⟩, [("order", 3)]⟩, [("calib", [("a", 5)])], []⟩
      [("dimensions", 7)]).2.2.2.2.2.2.2 (1/2) rfl)⟩

/- ## Geometry values

The builders in `src/pygeomhades/create_volumes.py` produce `GenericPolycone`
profiles (lists of (r, z) profile points) or boolean compositions of boxes.
A polycone volume description is its material name plus the `pR`/`pZ` lists
passed to `geant4.solid.GenericPolycone`. -/

/-- A (generic polycone) volume description: material name and the profile
point lists `pR`, `pZ` exactly as passed to the solid constructor. -/
structure VolumeDesc where
  material : String
  pR : List ℚ
  pZ : List ℚ
deriving DecidableEq

/-- Minimum of a list of rationals (first element seeds the fold). -/
def listMin : List ℚ → ℚ
  | [] => 0
  | x :: xs => xs.foldl min x

/-- Maximum of a list of rationals (first element seeds the fold). -/
def listMax : List ℚ → ℚ
  | [] => 0
  | x :: xs => xs.foldl max x

/-- Minimum z-coordinate of a polycone volume description. -/
def zminOf (v : VolumeDesc) : ℚ := listMin v.pZ

/-- Maximum z-coordinate of a polycone volume description. -/
def zmaxOf (v : VolumeDesc) : ℚ := listMax v.pZ

/-- Maximum radius of a polycone volume description. -/
def rmaxOf (v : VolumeDesc) : ℚ := listMax v.pR

/-- The numeric value denoted by a dimension after the template path formats it
with `f"{val:.1f}"` (src/pygeomhades/utils.py line 48) and the GDML reader
parses the digits back: the value rounded to one decimal place.  Rounding is
half-up; every concrete input used below is distant from a tie, where all
rounding conventions agree with Python's formatting. -/
def round1 (q : ℚ) : ℚ := (⌊10 * q + 1/2⌋ : ℚ) / 10

/- ## `create_vacuum_cavity` (create_volumes.py, lines 17-59) -/

/-- The cryostat dimension record: the five scalar fields read by
`create_vacuum_cavity` and `create_cryostat`. -/
structure CryostatMeta where
  width : ℚ
  thickness : ℚ
  height : ℚ
  position_cavity_from_top : ℚ
  position_cavity_from_bottom : ℚ
deriving DecidableEq

/-- `create_vacuum_cavity` (create_volumes.py lines 43-59): a generic polycone
of radius `(width - 2 * thickness) / 2` spanning
`z ∈ [0, height - position_cavity_from_top - position_cavity_from_bottom]`,
with material `G4_Galactic`. -/
def create_vacuum_cavity (m : CryostatMeta) : VolumeDesc :=
  let vacuum_cavity_radius := (m.width - 2 * m.thickness) / 2
  let vacuum_cavity_z :=
    m.height - m.position_cavity_from_top - m.position_cavity_from_bottom
  { material := "G4_Galactic"
    pR := [0, vacuum_cavity_radius, vacuum_cavity_radius, 0]
    pZ := [0, 0, vacuum_cavity_z, vacuum_cavity_z] }

/- ## `create_wrap` (create_volumes.py, lines 62-123) -/

/-- A height/radius pair as found in the wrap metadata. -/
structure HeightRadius where
  height_in_mm : ℚ
  radius_in_mm : ℚ
deriving DecidableEq

/-- The wrap dimension record. -/
structure WrapMeta where
  outer : HeightRadius
  inner : HeightRadius
deriving DecidableEq

/-- `create_wrap` with `from_gdml=False` (create_volumes.py lines 100-123):
the HD1000 polycone profile built directly from the metadata. -/
def create_wrap_direct (m : WrapMeta) : VolumeDesc :=
  let wrap_outer_height := m.outer.height_in_mm
  let wrap_outer_radius := m.outer.radius_in_mm
  let wrap_inner_radius := m.inner.radius_in_mm
  let wrap_top_thickness := wrap_outer_height - m.inner.height_in_mm
  { material := "HD1000"
    pR := [0, wrap_outer_radius, wrap_outer_radius, wrap_inner_radius, wrap_inner_radius]
    pZ := [0, 0, wrap_top_thickness, wrap_top_thickness, wrap_outer_height] }

/-- Modelled from the spec: the dummy GDML template `wrap_dummy.gdml` is not
under src/.  Per spec §4.2 and the equivalence test, the template path loads a
fixed shape description of the same profile and substitutes the replacement
values of create_volumes.py lines 92-97 — `outer.height_in_mm`,
`outer.radius_in_mm`, `inner.radius_in_mm`, and the top thickness
`outer.height_in_mm - inner.height_in_mm` — each formatted at one decimal
place, hence each denoting its `round1` value. -/
def create_wrap_template (m : WrapMeta) : VolumeDesc :=
  let h := round1 m.outer.height_in_mm
  let rOut := round1 m.outer.radius_in_mm
  let rIn := round1 m.inner.radius_in_mm
  let t := round1 (m.outer.height_in_mm - m.inner.height_in_mm)
  { material := "HD1000"
    pR := [0, rOut, rOut, rIn, rIn]
    pZ := [0, 0, t, t, h] }

/-- `create_wrap` (create_volumes.py lines 62-123): template path when
`from_gdml` is true, direct construction otherwise. -/
def create_wrap (m : WrapMeta) (from_gdml : Bool) : VolumeDesc :=
  if from_gdml then create_wrap_template m else create_wrap_direct m

/- ## `create_cryostat` (create_volumes.py, lines 769-819) -/

/-- `create_cryostat` with `from_gdml=False` (create_volumes.py lines 792-819):
the EN_AW-2011T8 polycone profile built directly from the metadata. -/
def create_cryostat_direct (m : CryostatMeta) : VolumeDesc :=
  let cryostat_height := m.height
  let cryostat_radius := m.width / 2
  let cryostat_cavity_radius := (m.width - 2 * m.thickness) / 2
  let start_cavity_z := m.position_cavity_from_top
  let end_cavity_z := cryostat_height - m.position_cavity_from_bottom
  { material := "EN_AW-2011T8"
    pR := [0, cryostat_radius, cryostat_radius, cryostat_cavity_radius,
      cryostat_cavity_radius, 0, 0, cryostat_radius, cryostat_radius, 0]
    pZ := [0, 0, start_cavity_z, start_cavity_z, end_cavity_z,
      end_cavity_z, end_cavity_z, end_cavity_z, cryostat_height, cryostat_height] }

/-- Modelled from the spec: the dummy GDML template `cryostat_dummy.gdml` is
not under src/.  The template path substitutes the five cryostat fields
(create_volumes.py lines 784-790), each formatted at one decimal place, into a
fixed description of the same profile. -/
def create_cryostat_template (m : CryostatMeta) : VolumeDesc :=
  create_cryostat_direct
    { width := round1 m.width
      thickness := round1 m.thickness
      height := round1 m.height
      position_cavity_from_top := round1 m.position_cavity_from_top
      position_cavity_from_bottom := round1 m.position_cavity_from_bottom }

/-- `create_cryostat` (create_volumes.py lines 769-819). -/
def create_cryostat (m : CryostatMeta) (from_gdml : Bool) : VolumeDesc :=
  if from_gdml then create_cryostat_template m else create_cryostat_direct m

/- ## `create_bottom_plate` (create_volumes.py, lines 255-325) -/

/-- Box dimensions (width, depth, height) as passed to `geant4.solid.Box`. -/
structure BoxDims where
  width : ℚ
  depth : ℚ
  height : ℚ
deriving DecidableEq

/-- The bottom-plate dimension record. -/
structure PlateMeta where
  width : ℚ
  depth : ℚ
  height : ℚ
  cavity : BoxDims
deriving DecidableEq

/-- The bottom-plate volume: a box minus a cavity box offset along the depth
axis, with a material name. -/
structure PlateDesc where
  material : String
  plate : BoxDims
  cavity : BoxDims
  cavity_offset_y : ℚ
deriving DecidableEq

/-- `create_bottom_plate` with `from_gdml=False` (create_volumes.py lines
289-325): aluminum box minus a cavity box offset by `depth / 2` along y. -/
def create_bottom_plate_direct (m : PlateMeta) : PlateDesc :=
  { material := "Al"
    plate := { width := m.width, depth := m.depth, height := m.height }
    cavity := m.cavity
    cavity_offset_y := m.depth / 2 }

/-- Modelled from the spec: the dummy GDML template `bottom_plate_dummy.gdml`
is not under src/.  The template path substitutes the six plate fields
(create_volumes.py lines 280-287), each formatted at one decimal place, into a
fixed description of the same box-minus-cavity solid. -/
def create_bottom_plate_template (m : PlateMeta) : PlateDesc :=
  create_bottom_plate_direct
    { width := round1 m.width
      depth := round1 m.depth
      height := round1 m.height
      cavity := { width := round1 m.cavity.width
                  depth := round1 m.cavity.depth
                  height := round1 m.cavity.height } }

/-- `create_bottom_plate` (create_volumes.py lines 255-325). -/
def create_bottom_plate (m : PlateMeta) (from_gdml : Bool) : PlateDesc :=
  if from_gdml then create_bottom_plate_template m else create_bottom_plate_direct m

/- ## Claim C7 -/

/-- **C7.** For every cryostat dimension record (with the data-model invariant
that the wall fits inside the width and the clearances inside the height), the
direct-construction vacuum cavity is a polycone whose maximum radius equals
`(width - 2 * thickness) / 2` and whose z-extent equals
`height - position_cavity_from_top - position_cavity_from_bottom`. -/
theorem create_vacuum_cavity_formulas (m : CryostatMeta)
    (hr : 2 * m.thickness ≤ m.width)
    (hz : m.position_cavity_from_top + m.position_cavity_from_bottom ≤ m.height) :
    rmaxOf (create_vacuum_cavity m) = (m.width - 2 * m.thickness) / 2 ∧
    zmaxOf (create_vacuum_cavity m) - zminOf (create_vacuum_cavity m) =
      m.height - m.position_cavity_from_top - m.position_cavity_from_bottom := by
  have hr0 : (0:ℚ) ≤ (m.width - 2 * m.thickness) / 2 := by linarith
  have hz0 : (0:ℚ) ≤ m.height - m.position_cavity_from_top - m.position_cavity_from_bottom := by
    linarith
  constructor
  · simp [create_vacuum_cavity, rmaxOf, listMax, max_eq_right hr0, max_eq_left hr0, max_self]
  · simp [create_vacuum_cavity, zmaxOf, zminOf, listMax, listMin,
      max_eq_right hz0, max_eq_left hz0, min_eq_left hz0, max_self, min_self]

/-- Witness for C7 at the docstring's example dimensions (200/2/200/10/20). -/
theorem create_vacuum_cavity_formulas_witness :
    rmaxOf (create_vacuum_cavity ⟨200, 2, 200, 10, 20⟩) = (200 - 2 * 2) / 2 ∧
    zmaxOf (create_vacuum_cavity ⟨200, 2, 200, 10, 20⟩) -
      zminOf (create_vacuum_cavity ⟨200, 2, 200, 10, 20⟩) = 200 - 10 - 20 :=
  create_vacuum_cavity_formulas ⟨200, 2, 200, 10, 20⟩ (by norm_num) (by norm_num)

/- ## Claim C1 -/

/-- **C1 (amended).** For the supported dual-path assemblies (wrap, cryostat,
bottom plate), the template and direct paths always produce volumes with equal
material name; and whenever every dimension value the builder reads is exact
at one decimal place (unchanged by the template path's one-decimal
formatting), the two volume descriptions coincide — in particular minimum and
maximum z and maximum radius agree within 1e-6.  (For values not exact at one
decimal place the template path rounds, and the bounds can differ by up to
0.05; see the counterexample.) -/
theorem build_template_direct_equivalent_on_tenths
    (w : WrapMeta) (c : CryostatMeta) (p : PlateMeta) :
    (create_wrap w true).material = (create_wrap w false).material ∧
    (create_cryostat c true).material = (create_cryostat c false).material ∧
    (create_bottom_plate p true).material = (create_bottom_plate p false).material ∧
    (round1 w.outer.height_in_mm = w.outer.height_in_mm →
     round1 w.outer.radius_in_mm = w.outer.radius_in_mm →
     round1 w.inner.radius_in_mm = w.inner.radius_in_mm →
     round1 (w.outer.height_in_mm - w.inner.height_in_mm) =
       w.outer.height_in_mm - w.inner.height_in_mm →
      create_wrap w true = create_wrap w false ∧
      |zminOf (create_wrap w true) - zminOf (create_wrap w false)| ≤ 1/1000000 ∧
      |zmaxOf (create_wrap w true) - zmaxOf (create_wrap w false)| ≤ 1/1000000 ∧
      |rmaxOf (create_wrap w true) - rmaxOf (create_wrap w false)| ≤ 1/1000000) ∧
    (round1 c.width = c.width → round1 c.thickness = c.thickness →
     round1 c.height = c.height →
     round1 c.position_cavity_from_top = c.position_cavity_from_top →
     round1 c.position_cavity_from_bottom = c.position_cavity_from_bottom →
      create_cryostat c true = create_cryostat c false ∧
      |zminOf (create_cryostat c true) - zminOf (create_cryostat c false)| ≤ 1/1000000 ∧
      |zmaxOf (create_cryostat c true) - zmaxOf (create_cryostat c false)| ≤ 1/1000000 ∧
      |rmaxOf (create_cryostat c true) - rmaxOf (create_cryostat c false)| ≤ 1/1000000) ∧
    (round1 p.width = p.width → round1 p.depth = p.depth → round1 p.height = p.height →
     round1 p.cavity.width = p.cavity.width → round1 p.cavity.depth = p.cavity.depth →
     round1 p.cavity.height = p.cavity.height →
      create_bottom_plate p true = create_bottom_plate p false) := by
  refine ⟨rfl, rfl, rfl, ?_, ?_, ?_⟩
  · intro h1 h2 h3 h4
    have heq : create_wrap w true = create_wrap w false := by
      simp [create_wrap, create_wrap_template, create_wrap_direct, h1, h2, h3, h4]
    refine ⟨heq, ?_, ?_, ?_⟩ <;> rw [heq] <;> simp
  · intro h1 h2 h3 h4 h5
    have heq : create_cryostat c true = create_cryostat c false := by
      simp [create_cryostat, create_cryostat_template, create_cryostat_direct,
        h1, h2, h3, h4, h5]
    refine ⟨heq, ?_, ?_, ?_⟩ <;> rw [heq] <;> simp
  · intro h1 h2 h3 h4 h5 h6
    simp [create_bottom_plate, create_bottom_plate_template, create_bottom_plate_direct,
      h1, h2, h3, h4, h5, h6]

/-- Witness for the amended C1 at one-decimal-exact dimensions (the test
suite's wrap 100/50/99/49, cryostat 100/2/250/10/20, plate 300/400/50 with
cavity 150/200/40). -/
theorem build_template_direct_equivalent_on_tenths_witness :
    create_wrap ⟨⟨100, 50⟩, ⟨99, 49⟩⟩ true = create_wrap ⟨⟨100, 50⟩, ⟨99, 49⟩⟩ false ∧
    create_cryostat ⟨100, 2, 250, 10, 20⟩ true = create_cryostat ⟨100, 2, 250, 10, 20⟩ false ∧
    create_bottom_plate ⟨300, 400, 50, ⟨150, 200, 40⟩⟩ true =
      create_bottom_plate ⟨300, 400, 50, ⟨150, 200, 40⟩⟩ false :=
  ⟨((build_template_direct_equivalent_on_tenths ⟨⟨100, 50⟩, ⟨99, 49⟩⟩
        ⟨100, 2, 250, 10, 20⟩ ⟨300, 400, 50, ⟨150, 200, 40⟩⟩).2.2.2.1
      (by norm_num [round1]) (by norm_num [round1]) (by norm_num [round1])
      (by norm_num [round1])).1,
   ((build_template_direct_equivalent_on_tenths ⟨⟨100, 50⟩, ⟨99, 49⟩⟩
        ⟨100, 2, 250, 10, 20⟩ ⟨300, 400, 50, ⟨150, 200, 40⟩⟩).2.2.2.2.1
      (by norm_num [round1]) (by norm_num [round1]) (by norm_num [round1])
      (by norm_num [round1]) (by norm_num [round1])).1,
   (build_template_direct_equivalent_on_tenths ⟨⟨100, 50⟩, ⟨99, 49⟩⟩
        ⟨100, 2, 250, 10, 20⟩ ⟨300, 400, 50, ⟨150, 200, 40⟩⟩).2.2.2.2.2
      (by norm_num [round1]) (by norm_num [round1]) (by norm_num [round1])
      (by norm_num [round1]) (by norm_num [round1]) (by norm_num [round1])⟩

/-- **C1 counterexample.** At the wrap record with `outer.height_in_mm =
100.13` (and integer radii), the two paths have equal material name but their
maximum z-coordinates differ by 0.03 — far beyond the claimed 1e-6 — because
the template path formats the value at one decimal place. -/
theorem create_wrap_paths_not_equivalent_at_two_decimals :
    (create_wrap ⟨⟨10013/100, 50⟩, ⟨100, 49⟩⟩ true).material =
      (create_wrap ⟨⟨10013/100, 50⟩, ⟨100, 49⟩⟩ false).material ∧
    ¬ |zmaxOf (create_wrap ⟨⟨10013/100, 50⟩, ⟨100, 49⟩⟩ true) -
        zmaxOf (create_wrap ⟨⟨10013/100, 50⟩, ⟨100, 49⟩⟩ false)| ≤ 1/1000000 := by
  constructor
  · rfl
  · have ht : zmaxOf (create_wrap ⟨⟨10013/100, 50⟩, ⟨100, 49⟩⟩ true) = 1001/10 := by
      norm_num [create_wrap, create_wrap_template, round1, zmaxOf, listMax, max_def]
    have hd : zmaxOf (create_wrap ⟨⟨10013/100, 50⟩, ⟨100, 49⟩⟩ false) = 10013/100 := by
      norm_num [create_wrap, create_wrap_direct, zmaxOf, listMax, max_def]
    rw [ht, hd, show ((1001:ℚ)/10) - 10013/100 = -(3/100) by norm_num, abs_neg,
      abs_of_pos (by norm_num)]
    norm_num

/- ## Solids, logical volumes and Python exceptions -/

/-- The Python exceptions raised by the builders and the orchestrator. -/
inductive PyExc
  | runtimeError (msg : String)
  | notImplementedError (msg : String)
  | valueError (msg : String)
  | attributeError (msg : String)
deriving DecidableEq

/-- Solid expressions: boxes, generic polycones, boolean unions/subtractions
(second solid displaced by the given x/y/z offset), and solids parsed from a
GDML template file after placeholder substitution. -/
inductive Solid
  | box (name : String) (width depth height : ℚ)
  | polycone (name : String) (pR pZ : List ℚ)
  | union (name : String) (a b : Solid) (ox oy oz : ℚ)
  | subtraction (name : String) (a b : Solid) (ox oy oz : ℚ)
  | fromGdml (path : String) (replacements : List (String × ℚ))
deriving DecidableEq

/-- A logical volume: name, material name, solid. -/
structure LogicalVolume where
  name : String
  material : String
  solid : Solid
deriving DecidableEq

/-- Modelled from the spec: `read_gdml_with_replacements` is imported by
create_volumes.py from `pygeomhades.utils` but absent from the src/ copy of
utils.py (which holds only its precursor `amend_gdml`).  Per spec §4.2 it
loads the named fixed shape-description file, substitutes the replacement
values, parses the result and returns the requested logical volume. -/
def read_gdml_with_replacements (path : String) (replacements : List (String × ℚ))
    (vol_name : Option String) : LogicalVolume :=
  { name := vol_name.getD path
    material := "from_template"
    solid := .fromGdml path replacements }

/- ## `create_holder` (create_volumes.py, lines 126-252) -/

/-- The `rings` subrecord of the holder metadata. -/
structure RingsMeta where
  position_top_ring_in_mm : ℚ
  position_bottom_ring_in_mm : ℚ
  radius_in_mm : ℚ
  height_in_mm : ℚ
deriving DecidableEq

/-- An inner/outer cylinder pair of the holder metadata. -/
structure CylinderMeta where
  inner : HeightRadius
  outer : HeightRadius
deriving DecidableEq

/-- The holder dimension record. -/
structure HolderMeta where
  cylinder : CylinderMeta
  bottom_cyl : CylinderMeta
  rings : RingsMeta
  edge_height_in_mm : ℚ
deriving DecidableEq

/-- The replacement mapping of the ICPC holder template path
(create_volumes.py lines 173-188). -/
def holderIcpcReplacements (m : HolderMeta) : List (String × ℚ) :=
  [("max_radius_in_mm", m.rings.radius_in_mm),
   ("outer_height_in_mm", m.cylinder.outer.height_in_mm),
   ("inner_height_in_mm", m.cylinder.inner.height_in_mm),
   ("outer_radius_in_mm", m.cylinder.outer.radius_in_mm),
   ("inner_radius_in_mm", m.cylinder.inner.radius_in_mm),
   ("outer_bottom_cyl_radius_in_mm", m.bottom_cyl.outer.radius_in_mm),
   ("inner_bottom_cyl_radius_in_mm", m.bottom_cyl.inner.radius_in_mm),
   ("edge_height_in_mm", m.edge_height_in_mm),
   ("pos_top_ring_in_mm", m.rings.position_top_ring_in_mm),
   ("pos_bottom_ring_in_mm", m.rings.position_bottom_ring_in_mm),
   ("end_top_ring_in_mm", m.rings.position_top_ring_in_mm + m.rings.height_in_mm),
   ("end_bottom_ring_in_mm", m.rings.position_bottom_ring_in_mm + m.rings.height_in_mm),
   ("end_bottom_cyl_outer_in_mm",
     m.cylinder.outer.height_in_mm + m.bottom_cyl.outer.height_in_mm),
   ("end_bottom_cyl_inner_in_mm",
     m.cylinder.inner.height_in_mm + m.bottom_cyl.inner.height_in_mm)]

/-- The replacement mapping of the BEGe holder template path
(create_volumes.py lines 197-205). -/
def holderBegeReplacements (m : HolderMeta) : List (String × ℚ) :=
  [("max_radius_in_mm", m.rings.radius_in_mm),
   ("outer_height_in_mm", m.cylinder.outer.height_in_mm),
   ("inner_height_in_mm", m.cylinder.inner.height_in_mm),
   ("outer_radius_in_mm", m.cylinder.outer.radius_in_mm),
   ("inner_radius_in_mm", m.cylinder.inner.radius_in_mm),
   ("position_top_ring_in_mm", m.rings.position_top_ring_in_mm),
   ("end_top_ring_in_mm", m.rings.height_in_mm + m.rings.position_top_ring_in_mm)]

/-- The direct-construction BEGe holder polycone (create_volumes.py lines
220-244). -/
def holderBegeSolid (m : HolderMeta) : Solid :=
  let max_radius := m.rings.radius_in_mm
  let outer_height := m.cylinder.outer.height_in_mm
  let inner_height := m.cylinder.inner.height_in_mm
  let outer_radius := m.cylinder.outer.radius_in_mm
  let inner_radius := m.cylinder.inner.radius_in_mm
  let pos_top_ring_z := m.rings.position_top_ring_in_mm
  let end_top_ring_z := m.rings.height_in_mm + m.rings.position_top_ring_in_mm
  .polycone "holder"
    [outer_radius, outer_radius, max_radius, max_radius, outer_radius,
     outer_radius, outer_radius, 0, 0, inner_radius,
     inner_radius, inner_radius, inner_radius]
    [0, pos_top_ring_z, pos_top_ring_z, end_top_ring_z, end_top_ring_z,
     inner_height, outer_height, outer_height, inner_height, inner_height,
     end_top_ring_z, pos_top_ring_z, 0]

/-- `create_holder` (create_volumes.py lines 126-252): template path for
`icpc`/`bege` detector types, direct construction implemented for `bege` only;
the ICPC direct path and the unknown types raise `NotImplementedError`. -/
def create_holder (holder_meta : HolderMeta) (det_type : String) (from_gdml : Bool) :
    Except PyExc LogicalVolume :=
  if from_gdml then
    if det_type = "icpc" then
      .ok (read_gdml_with_replacements "holder_icpc_dummy.gdml"
        (holderIcpcReplacements holder_meta) none)
    else if det_type = "bege" then
      .ok (read_gdml_with_replacements "holder_bege_dummy.gdml"
        (holderBegeReplacements holder_meta) none)
    else
      .error (.notImplementedError "cannot construct geometry for coax or ppc")
  else
    if det_type = "bege" then
      .ok { name := "Holder", material := "EN_AW-2011T8", solid := holderBegeSolid holder_meta }
    else if det_type = "icpc" then
      .error (.notImplementedError
        "ICPC holder python implementation not yet complete - use from_gdml=True")
    else
      .error (.notImplementedError "cannot construct geometry for coax or ppc")

/- ## `create_lead_castle` (create_volumes.py, lines 328-508) -/

/-- The lead-castle dimension record: one width/depth/height box record per
named part. -/
structure CastleDims where
  base : BoxDims
  inner_cavity : BoxDims
  cavity : BoxDims
  top : BoxDims
  front : BoxDims
  copper_plate : BoxDims
deriving DecidableEq

/-- The replacement mapping of the table-1 lead-castle template path
(create_volumes.py lines 367-383). -/
def castleTable1Replacements (d : CastleDims) : List (String × ℚ) :=
  [("base_width_1", d.base.width), ("base_depth_1", d.base.depth),
   ("base_height_1", d.base.height),
   ("inner_cavity_width_1", d.inner_cavity.width),
   ("inner_cavity_depth_1", d.inner_cavity.depth),
   ("inner_cavity_height_1", d.inner_cavity.height),
   ("cavity_width_1", d.cavity.width), ("cavity_depth_1", d.cavity.depth),
   ("cavity_height_1", d.cavity.height),
   ("top_width_1", d.top.width), ("top_depth_1", d.top.depth),
   ("top_height_1", d.top.height),
   ("front_width_1", d.front.width), ("front_depth_1", d.front.depth),
   ("front_height_1", d.front.height)]

/-- The replacement mapping of the table-2 lead-castle template path
(create_volumes.py lines 386-399). -/
def castleTable2Replacements (d : CastleDims) : List (String × ℚ) :=
  [("base_width_2", d.base.width), ("base_depth_2", d.base.depth),
   ("base_height_2", d.base.height),
   ("inner_cavity_width_2", d.inner_cavity.width),
   ("inner_cavity_depth_2", d.inner_cavity.depth),
   ("inner_cavity_height_2", d.inner_cavity.height),
   ("top_width_2", d.top.width), ("top_depth_2", d.top.depth),
   ("top_height_2", d.top.height),
   ("copper_plate_width", d.copper_plate.width),
   ("copper_plate_depth", d.copper_plate.depth),
   ("copper_plate_height", d.copper_plate.height)]

/-- The direct-construction table-1 lead-castle solid (create_volumes.py lines
408-502): base box, union of the two cavity boxes subtracted from it, then the
top and front add-on boxes unioned on, at the offsets computed in the source. -/
def castleTable1Solid (d : CastleDims) : Solid :=
  let base_solid := Solid.box "base_lead_castle_1" d.base.width d.base.depth d.base.height
  let inner_cavity_solid :=
    Solid.box "inner_cavity_base_1" d.inner_cavity.width d.inner_cavity.depth
      d.inner_cavity.height
  let cavity_solid := Solid.box "cavity_base_1" d.cavity.width d.cavity.depth d.cavity.height
  let top_solid := Solid.box "top_lead_castle_1" d.top.width d.top.depth d.top.height
  let front_solid := Solid.box "front_1" d.front.width d.front.depth d.front.height
  let pos_cavity_y := d.inner_cavity.depth / 2 + (d.base.depth - d.inner_cavity.depth) / 4
  let pos_cavity_z := (d.inner_cavity.height - d.cavity.height) / 2
  let total_cavity :=
    Solid.union "total_cavity_1" inner_cavity_solid cavity_solid 0 pos_cavity_y pos_cavity_z
  let base_cavity := Solid.subtraction "base_cavity_1" base_solid total_cavity 0 0 0
  let pos_top_z := -(d.base.height + d.top.height) / 2 - 1/100
  let top_base := Solid.union "top_base_1" base_cavity top_solid 0 0 pos_top_z
  let pos_front_y := (d.base.depth + d.front.depth) / 2 - 1/100
  let pos_front_z := (d.base.height - d.front.height) / 2
  Solid.union "final_lead_castle_1" top_base front_solid 0 pos_front_y pos_front_z

/-- `create_lead_castle` (create_volumes.py lines 328-508): table number must
be 1 or 2; template path for both tables; direct construction implemented for
table 1 only, table 2 raises `NotImplementedError`. -/
def create_lead_castle (table_num : ℤ) (castle_dimensions : CastleDims)
    (from_gdml : Bool) (volume_name : String) : Except PyExc LogicalVolume :=
  if table_num ≠ 1 ∧ table_num ≠ 2 then
    .error (.valueError "Table number must be 1 or 2")
  else if from_gdml then
    if table_num = 1 then
      .ok (read_gdml_with_replacements "lead_castle_table1_dummy.gdml"
        (castleTable1Replacements castle_dimensions) (some volume_name))
    else
      .ok (read_gdml_with_replacements "lead_castle_table2_dummy.gdml"
        (castleTable2Replacements castle_dimensions) (some volume_name))
  else if table_num = 1 then
    .ok { name := "Lead_castle", material := "G4_Pb",
          solid := castleTable1Solid castle_dimensions }
  else
    .error (.notImplementedError
      "Table 2 Python implementation not yet complete - use from_gdml=True")

/- ## Claim C5 -/

/-- **C5.** The assembly/path combinations without a direct-construction
implementation — the ICPC holder with `from_gdml=False` and the table-2 lead
castle with `from_gdml=False` — raise `NotImplementedError` instead of
producing geometry, while the same combinations via the template path
(`from_gdml=True`) succeed and return a logical volume. -/
theorem unimplemented_direct_paths (hm : HolderMeta) (cd : CastleDims) (vn : String) :
    create_holder hm "icpc" false =
      .error (.notImplementedError
        "ICPC holder python implementation not yet complete - use from_gdml=True") ∧
    create_lead_castle 2 cd false vn =
      .error (.notImplementedError
        "Table 2 Python implementation not yet complete - use from_gdml=True") ∧
    (∃ lv : LogicalVolume, create_holder hm "icpc" true = .ok lv) ∧
    (∃ lv : LogicalVolume, create_lead_castle 2 cd true vn = .ok lv) :=
  ⟨by simp [create_holder], by simp [create_lead_castle],
   ⟨read_gdml_with_replacements "holder_icpc_dummy.gdml" (holderIcpcReplacements hm) none,
     by simp [create_holder]⟩,
   ⟨read_gdml_with_replacements "lead_castle_table2_dummy.gdml"
       (castleTable2Replacements cd) (some vn),
     by simp [create_lead_castle]⟩⟩

/- ## Claim C8 -/

/-- **C8.** The direct-construction table-1 lead castle follows the fixed
order: base box; union of the inner cavity and secondary cavity boxes
subtracted from the base; then the top and front add-on boxes unioned on.
The secondary cavity's center offset along the depth axis equals
`inner_cavity.depth / 2 + (base.depth - inner_cavity.depth) / 4`. -/
theorem create_lead_castle_table1_structure (d : CastleDims) (vn : String) :
    create_lead_castle 1 d false vn =
      .ok { name := "Lead_castle", material := "G4_Pb",
            solid := Solid.union "final_lead_castle_1"
              (Solid.union "top_base_1"
                (Solid.subtraction "base_cavity_1"
                  (Solid.box "base_lead_castle_1" d.base.width d.base.depth d.base.height)
                  (Solid.union "total_cavity_1"
                    (Solid.box "inner_cavity_base_1" d.inner_cavity.width
                      d.inner_cavity.depth d.inner_cavity.height)
                    (Solid.box "cavity_base_1" d.cavity.width d.cavity.depth d.cavity.height)
                    0 (d.inner_cavity.depth / 2 + (d.base.depth - d.inner_cavity.depth) / 4)
                    ((d.inner_cavity.height - d.cavity.height) / 2))
                  0 0 0)
                (Solid.box "top_lead_castle_1" d.top.width d.top.depth d.top.height)
                0 0 (-(d.base.height + d.top.height) / 2 - 1/100))
              (Solid.box "front_1" d.front.width d.front.depth d.front.height)
              0 ((d.base.depth + d.front.depth) / 2 - 1/100)
              ((d.base.height - d.front.height) / 2) } := by
  simp [create_lead_castle, castleTable1Solid]

/- ## `construct` (src/pygeomhades/core.py, lines 52-203) -/

/-- The constants of the `pygeomhades.fixed_dimensions` module (imported as
`dim` by core.py).  Modelled from the spec: the module itself is not under
src/, so its constants are parameters here; only the placement offsets that
core.py reads appear. -/
structure FixedDims where
  position_cryostat_cavity_from_top : ℚ
  position_cryostat_cavity_from_bottom : ℚ
  positions_from_cryostat_detector : ℚ
  positions_from_cryostat_wrap : ℚ
  positions_from_cryostat_holder : ℚ
  bottom_plate_height : ℚ
  base_height : ℚ
  position_source_from_cryostat_z : ℚ
  source_holder_top_plate_height : ℚ
deriving DecidableEq

/-- A placed physical volume: its name, the mother volume's name, and its
z-offset (x and y are zero for every placement in core.py). -/
structure PlacedVolume where
  name : String
  mother : String
  z : ℚ
deriving DecidableEq

/-- The scene graph returned by `construct`: the world volume name, the
physical-volume placements, and the builder functions that were invoked. -/
structure Registry where
  worldVolume : String
  placements : List PlacedVolume
  builderCalls : List String
deriving DecidableEq

/-- The registry-building portion of `construct` (core.py lines 99-203):
create the world volume, then for each assembly present in the selection set
invoke its builder and place the produced volume at the offset computed from
the fixed dimensions; assemblies not in the set are skipped entirely. -/
def buildRegistry (dim : FixedDims) (assemblies : List String) : Registry :=
  let placements :=
    (if "vacuum_cavity" ∈ assemblies then
      [PlacedVolume.mk "cavity_pv" "world_lv" dim.position_cryostat_cavity_from_top] else [])
    ++ (if "detector" ∈ assemblies then
      [PlacedVolume.mk "hpge_pv" "cavity_lv"
        (dim.positions_from_cryostat_detector - dim.position_cryostat_cavity_from_top)] else [])
    ++ (if "wrap" ∈ assemblies then
      [PlacedVolume.mk "wrap_pv" "cavity_lv"
        (dim.positions_from_cryostat_wrap - dim.position_cryostat_cavity_from_top)] else [])
    ++ (if "holder" ∈ assemblies then
      [PlacedVolume.mk "holder_pv" "cavity_lv"
        (dim.positions_from_cryostat_holder - dim.position_cryostat_cavity_from_top)] else [])
    ++ (if "bottom_plate" ∈ assemblies then
      [PlacedVolume.mk "plate_pv" "world_lv"
        (dim.position_cryostat_cavity_from_bottom + dim.bottom_plate_height / 2)] else [])
    ++ (if "lead_castle" ∈ assemblies then
      [PlacedVolume.mk "castle_pv" "world_lv"
        (dim.position_cryostat_cavity_from_bottom - dim.base_height / 2)] else [])
    ++ (if "source" ∈ assemblies then
      [PlacedVolume.mk "source_pv" "world_lv" (-dim.position_source_from_cryostat_z)] else [])
    ++ (if "source_holder" ∈ assemblies then
      [PlacedVolume.mk "s_holder_pv" "world_lv"
        (-(dim.position_source_from_cryostat_z + dim.source_holder_top_plate_height / 2))]
      else [])
    ++ (if "cryostat" ∈ assemblies then [PlacedVolume.mk "cryo_pv" "world_lv" 0] else [])
  let builderCalls :=
    (if "vacuum_cavity" ∈ assemblies then ["create_vacuum_cavity"] else [])
    ++ (if "detector" ∈ assemblies then ["create_detector"] else [])
    ++ (if "wrap" ∈ assemblies then ["create_wrap"] else [])
    ++ (if "holder" ∈ assemblies then ["create_holder"] else [])
    ++ (if "bottom_plate" ∈ assemblies then ["create_bottom_plate"] else [])
    ++ (if "lead_castle" ∈ assemblies then ["create_lead_castle"] else [])
    ++ (if "source" ∈ assemblies then ["create_source"] else [])
    ++ (if "source_holder" ∈ assemblies then ["create_source_holder"] else [])
    ++ (if "cryostat" ∈ assemblies then ["create_cryostat"] else [])
  { worldVolume := "world_lv", placements := placements, builderCalls := builderCalls }

/-- The metadata-fetch step of core.py's `merge_configs` (lines 44-49): it
dereferences `lmeta.hardware.detectors.germanium.diodes[...]`; when `lmeta`
is `None` this attribute access raises `AttributeError`. -/
def core_merge_configs (lmeta : Option Unit) : Except PyExc Unit :=
  match lmeta with
  | none => .error (.attributeError "NoneType object has no attribute hardware")
  | some _ => .ok ()

/-- The outcome of a `construct` call: whether the public-data warning was
logged, and either the built registry or the raised exception. -/
structure ConstructOutcome where
  warned : Bool
  result : Except PyExc Registry

/-- `construct` (core.py lines 52-203).  `lmeta_available` models whether
`LegendMetadata(lazy=True)` succeeds (an unreachable source raises
`GitCommandError`, which is suppressed, leaving `lmeta = None`); it is only
attempted when `public_geometry` is false.  If `lmeta` is `None` and the
caller did not pass `public_geometry=True`, a `RuntimeError` is raised before
any geometry is built.  Otherwise a warning is logged when `lmeta` is `None`,
and `merge_configs` is called on `lmeta` before the registry is built. -/
def construct (lmeta_available public_geometry : Bool) (dim : FixedDims)
    (assemblies : List String) : ConstructOutcome :=
  let lmeta : Option Unit :=
    if public_geometry then none
    else if lmeta_available then some () else none
  if lmeta = none ∧ public_geometry = false then
    { warned := false
      result := .error (.runtimeError
        "cannot construct geometry from public testdata only, if not explicitly instructed") }
  else
    let warned := lmeta = none
    match core_merge_configs lmeta with
    | .error e => { warned := warned, result := .error e }
    | .ok _ => { warned := warned, result := .ok (buildRegistry dim assemblies) }

/- ## Claim C4 -/

/-- **C4.** `construct` with an empty assembly-selection set returns a scene
graph containing only the world volume: no assembly builder runs and the
registry's volume tree is the single world root with no placed child volumes
(shown both for the registry-building step on its own and for a successful
`construct` call). -/
theorem construct_empty_assemblies_world_only (dim : FixedDims) :
    buildRegistry dim [] =
      { worldVolume := "world_lv", placements := [], builderCalls := [] } ∧
    construct true false dim [] =
      { warned := false
        result := .ok { worldVolume := "world_lv", placements := [], builderCalls := [] } } := by
  constructor
  · simp [buildRegistry]
  · simp [construct, core_merge_configs, buildRegistry]

/- ## Claim C2 -/

/-- **C2 (code evaluation).** With no authoritative metadata source reachable:
`construct(public_geometry=False)` raises the fatal `RuntimeError` before
building any geometry, as the claim states; but
`construct(public_geometry=True)` logs the public-data warning and then
crashes with `AttributeError` — core.py leaves `lmeta = None` (the
`PublicLegendMetadataProxy` of metadata.py is never used; see the TODO at
core.py lines 93-94) and `merge_configs` dereferences it — instead of
completing with a scene graph built from the placeholder record as the claim,
the module's tests (tests/test_core.py) and the TODO comment require. -/
theorem construct_unavailable_source_outcomes (dim : FixedDims)
    (assemblies : List String) :
    construct false false dim assemblies =
      { warned := false
        result := .error (.runtimeError
          "cannot construct geometry from public testdata only, if not explicitly instructed") } ∧
    (construct false true dim assemblies).warned = true ∧
    construct false true dim assemblies =
      { warned := true
        result := .error (.attributeError "NoneType object has no attribute hardware") } := by
  refine ⟨?_, ?_, ?_⟩ <;> simp [construct, core_merge_configs]

/- ## `parse_measurement` and claim C6 -/

/-- Split a character list at each underscore (empty parts preserved). -/
def splitUnderscore : List Char → List (List Char)
  | [] => [[]]
  | c :: rest =>
    if c = '_' then [] :: splitUnderscore rest
    else
      match splitUnderscore rest with
      | [] => [[c]]
      | p :: ps => (c :: p) :: ps

/-- A parsed measurement identifier: source label, position, run id. -/
structure Measurement where
  source : List Char
  position : List Char
  id : List Char
deriving DecidableEq

/-- Modelled from the spec: `parse_measurement` is exercised by the test suite
(tests/test_utils.py lines 35-50) but absent from the src/ copy of utils.py.
Per spec §6 the measurement identifier follows the fixed grammar
`<source>_<HSn>_<position>_<id>` — the source label is the first two
underscore-separated parts joined back with the underscore — with one
documented legacy rename applied to exactly one historical source label and
to no other input.  The spec does not name that label or its replacement, so
they are parameters of the model. -/
def parse_measurement (legacy_label renamed_label : List Char)
    (measurement : List Char) : Option Measurement :=
  match splitUnderscore measurement with
  | [a, b, c, d] =>
    let src := a ++ '_' :: b
    some { source := if src = legacy_label then renamed_label else src
           position := c
           id := d }
  | _ => none

/-- **C6.** Parsing by the fixed grammar yields, for `"cs_HS2_bottom_foo"`,
source `"cs_HS2"`, position `"bottom"`, id `"foo"`; and for
`"am_HS6_top_dlt"`, source `"am_HS6"` with no legacy rename applied — the
rename targets one specific historical source label, which is neither of
these two. -/
theorem parse_measurement_grammar (legacy renamed : List Char)
    (h1 : legacy ≠ "cs_HS2".data) (h2 : legacy ≠ "am_HS6".data) :
    parse_measurement legacy renamed "cs_HS2_bottom_foo".data =
      some ⟨"cs_HS2".data, "bottom".data, "foo".data⟩ ∧
    parse_measurement legacy renamed "am_HS6_top_dlt".data =
      some ⟨"am_HS6".data, "top".data, "dlt".data⟩ := by
  constructor
  · have hs : splitUnderscore "cs_HS2_bottom_foo".data =
        ["cs".data, "HS2".data, "bottom".data, "foo".data] := by decide
    have hsrc : ("cs".data ++ '_' :: "HS2".data : List Char) = "cs_HS2".data := by decide
    simp [parse_measurement, hs, hsrc, Ne.symm h1]
  · have hs : splitUnderscore "am_HS6_top_dlt".data =
        ["am".data, "HS6".data, "top".data, "dlt".data] := by decide
    have hsrc : ("am".data ++ '_' :: "HS6".data : List Char) = "am_HS6".data := by decide
    simp [parse_measurement, hs, hsrc, Ne.symm h2]

/-- Witness for C6 with the legacy label instantiated at a source label
distinct from both inputs. -/
theorem parse_measurement_grammar_witness :
    parse_measurement "xx_HS0".data "yy_HS0".data "cs_HS2_bottom_foo".data =
      some ⟨"cs_HS2".data, "bottom".data, "foo".data⟩ ∧
    parse_measurement "xx_HS0".data "yy_HS0".data "am_HS6_top_dlt".data =
      some ⟨"am_HS6".data, "top".data, "dlt".data⟩ :=
  parse_measurement_grammar "xx_HS0".data "yy_HS0".data (by decide) (by decide)

/- ## `amend_gdml` (src/pygeomhades/utils.py, lines 39-58) and claim C9

The substitution step operates on the template file's text.  Text is modelled
as `List Char`; `str.replace` is the left-to-right, leftmost, non-overlapping
scan implemented below with explicit fuel (one character is consumed per step,
so `s.length` fuel always suffices). -/

/-- Join a list of pieces, inserting `sep` between consecutive pieces. -/
def joinWith (sep : List Char) : List (List Char) → List Char
  | [] => []
  | [p] => p
  | p :: ps => p ++ sep ++ joinWith sep ps

/-- Scan splitting `s` at each leftmost, non-overlapping occurrence of `pat`
(the pieces are the text between occurrences).  Fuel-bounded recursion. -/
def splitAux (pat : List Char) : ℕ → List Char → List (List Char)
  | 0, s => [s]
  | fuel + 1, s =>
    if pat ≠ [] ∧ pat.isPrefixOf s then
      [] :: splitAux pat fuel (s.drop pat.length)
    else
      match s with
      | [] => [[]]
      | c :: rest =>
        match splitAux pat fuel rest with
        | [] => [[c]]
        | p :: ps => (c :: p) :: ps

/-- The scan of Python `str.replace`: at each position, if `pat` starts there,
emit `rep` and skip past `pat`; otherwise keep the character.  Fuel-bounded
recursion. -/
def replaceAux (pat rep : List Char) : ℕ → List Char → List Char
  | 0, s => s
  | fuel + 1, s =>
    if pat ≠ [] ∧ pat.isPrefixOf s then
      rep ++ replaceAux pat rep fuel (s.drop pat.length)
    else
      match s with
      | [] => []
      | c :: rest => c :: replaceAux pat rep fuel rest

/-- Python `s.replace(pat, rep)` (for the nonempty patterns used as
placeholder tokens). -/
def pyReplace (s pat rep : List Char) : List Char := replaceAux pat rep s.length s

/-- Split `s` at each leftmost, non-overlapping occurrence of `pat`. -/
def splitOnPat (s pat : List Char) : List (List Char) := splitAux pat s.length s

theorem splitAux_succ (pat : List Char) (fuel : ℕ) (s : List Char) :
    splitAux pat (fuel + 1) s =
      if pat ≠ [] ∧ pat.isPrefixOf s then
        [] :: splitAux pat fuel (s.drop pat.length)
      else
        match s with
        | [] => [[]]
        | c :: rest =>
          match splitAux pat fuel rest with
          | [] => [[c]]
          | p :: ps => (c :: p) :: ps := rfl

theorem replaceAux_succ (pat rep : List Char) (fuel : ℕ) (s : List Char) :
    replaceAux pat rep (fuel + 1) s =
      if pat ≠ [] ∧ pat.isPrefixOf s then
        rep ++ replaceAux pat rep fuel (s.drop pat.length)
      else
        match s with
        | [] => []
        | c :: rest => c :: replaceAux pat rep fuel rest := rfl

theorem splitAux_ne_nil (pat : List Char) (fuel : ℕ) (s : List Char) :
    splitAux pat fuel s ≠ [] := by
  match fuel with
  | 0 => simp [splitAux]
  | fuel + 1 =>
    rw [splitAux_succ]
    by_cases h : pat ≠ [] ∧ pat.isPrefixOf s
    · simp [h]
    · rw [if_neg h]
      cases s with
      | nil => simp
      | cons c rest =>
        dsimp only
        cases hs : splitAux pat fuel rest <;> simp

theorem joinWith_cons_cons (sep p : List Char) (c : Char) (ps : List (List Char)) :
    joinWith sep ((c :: p) :: ps) = c :: joinWith sep (p :: ps) := by
  cases ps <;> simp [joinWith]

theorem joinWith_nil_cons (sep p : List Char) (ps : List (List Char)) :
    joinWith sep ([] :: p :: ps) = sep ++ joinWith sep (p :: ps) := by
  simp [joinWith]

/-- Rejoining the split pieces with the pattern itself reconstructs the text:
the pieces returned by the scan are exactly the text between the leftmost,
non-overlapping occurrences of the pattern. -/
theorem join_splitAux (pat : List Char) (fuel : ℕ) (s : List Char) :
    joinWith pat (splitAux pat fuel s) = s := by
  induction fuel generalizing s with
  | zero => simp [splitAux, joinWith]
  | succ fuel ih =>
    rw [splitAux_succ]
    by_cases h : pat ≠ [] ∧ pat.isPrefixOf s
    · rw [if_pos h]
      obtain ⟨t, ht⟩ := List.isPrefixOf_iff_prefix.mp h.2
      cases hsp : splitAux pat fuel (s.drop pat.length) with
      | nil => exact absurd hsp (splitAux_ne_nil pat fuel _)
      | cons p ps =>
        rw [joinWith_nil_cons, ← hsp, ih, ← ht, List.drop_left]
    · rw [if_neg h]
      cases s with
      | nil => simp [joinWith]
      | cons c rest =>
        dsimp only
        cases hsp : splitAux pat fuel rest with
        | nil => exact absurd hsp (splitAux_ne_nil pat fuel _)
        | cons p ps =>
          dsimp only
          rw [joinWith_cons_cons, ← hsp, ih]

/-- The replace scan equals: split at each occurrence, rejoin with the
replacement — i.e. it replaces every leftmost, non-overlapping occurrence. -/
theorem replaceAux_eq_join (pat rep : List Char) (fuel : ℕ) (s : List Char) :
    replaceAux pat rep fuel s = joinWith rep (splitAux pat fuel s) := by
  induction fuel generalizing s with
  | zero => simp [splitAux, replaceAux, joinWith]
  | succ fuel ih =>
    rw [splitAux_succ, replaceAux_succ]
    by_cases h : pat ≠ [] ∧ pat.isPrefixOf s
    · rw [if_pos h, if_pos h]
      cases hsp : splitAux pat fuel (s.drop pat.length) with
      | nil => exact absurd hsp (splitAux_ne_nil pat fuel _)
      | cons p ps =>
        rw [joinWith_nil_cons, ← hsp, ih]
    · rw [if_neg h, if_neg h]
      cases s with
      | nil => simp [joinWith]
      | cons c rest =>
        dsimp only
        cases hsp : splitAux pat fuel rest with
        | nil => exact absurd hsp (splitAux_ne_nil pat fuel _)
        | cons p ps =>
          dsimp only
          rw [joinWith_cons_cons, ← hsp, ih]

/-- The decimal rendering of `f"{q:.1f}"` for nonnegative `q`: the value
rounded to tenths, written as integer part, dot, single tenths digit. -/
def formatFixed1Abs (q : ℚ) : List Char :=
  let n := (⌊10 * q + 1/2⌋).toNat
  Nat.toDigits 10 (n / 10) ++ '.' :: Nat.toDigits 10 (n % 10)

/-- `f"{val:.1f}"` (utils.py line 48): the numeric value formatted with
exactly one decimal place.  Rounding is half-up; every concrete value used
below is away from a tie, where Python's rounding of the underlying binary
double agrees. -/
def formatFixed1 (q : ℚ) : List Char :=
  if q < 0 then '-' :: formatFixed1Abs (-q) else formatFixed1Abs q

/-- The placeholder-substitution step of `amend_gdml` (utils.py lines 45-48):
fold over the replacement mapping in order; each entry replaces the
occurrences of its token in the then-current text by the value formatted with
one decimal place.  (The file read, the scoped temporary file and the GDML
parse around the substitution are I/O and are not modelled.) -/
def amend_gdml (gdml_text : List Char) (replacements : List (List Char × ℚ)) :
    List Char :=
  replacements.foldl (fun t kv => pyReplace t kv.1 (formatFixed1 kv.2)) gdml_text

/-- Whether `pat` occurs as a contiguous substring of `s`. -/
def occursIn (pat s : List Char) : Bool := s.tails.any pat.isPrefixOf

/- ## Claim C9 -/

/-- **C9 (amended).** The template-path substitution processes the replacement
mapping sequentially in mapping order; each entry replaces every leftmost,
non-overlapping occurrence of its token present in the then-current text with
the value formatted with exactly one decimal place — equivalently, each step
splits the current text at the token's occurrences and rejoins the pieces with
the formatted value, and rejoining those pieces with the token itself gives
the text back.  (A token whose occurrences overlap an earlier entry's token or
its formatted output may therefore not be substituted; see the
counterexample.) -/
theorem amend_gdml_replaces_sequentially (gdml_text : List Char)
    (replacements : List (List Char × ℚ)) :
    amend_gdml gdml_text replacements =
      replacements.foldl
        (fun t kv => joinWith (formatFixed1 kv.2) (splitOnPat t kv.1)) gdml_text ∧
    ∀ s pat : List Char, joinWith pat (splitOnPat s pat) = s := by
  constructor
  · unfold amend_gdml
    congr 1
    funext t kv
    exact replaceAux_eq_join kv.1 (formatFixed1 kv.2) t.length t
  · exact fun s pat => join_splitAux pat s.length s

/-- **C9 counterexample.** For the replacements mapping
`{"a" ↦ 1, "aa" ↦ 2}` on the text `"aa"`, the token `"aa"` occurs in the
file's text, yet the substitution produces `"1.01.0"`, which nowhere contains
`"aa"`'s formatted value `"2.0"`: the occurrence of `"aa"` was consumed by the
earlier entry `"a"` instead of being replaced with `2` formatted at one
decimal place, refuting the claim for arbitrary replacement mappings. -/
theorem amend_gdml_overlapping_tokens_not_all_replaced :
    occursIn "aa".data "aa".data = true ∧
    amend_gdml "aa".data [("a".data, 1), ("aa".data, 2)] = "1.01.0".data ∧
    occursIn (formatFixed1 2)
      (amend_gdml "aa".data [("a".data, 1), ("aa".data, 2)]) = false := by
  have h1 : formatFixed1 1 = "1.0".data := by
    have h : (⌊(10:ℚ) * 1 + 1/2⌋ : ℤ) = 10 := by norm_num
    rw [formatFixed1, if_neg (by norm_num), formatFixed1Abs]
    rw [h]
    decide
  have h2 : formatFixed1 2 = "2.0".data := by
    have h : (⌊(10:ℚ) * 2 + 1/2⌋ : ℤ) = 20 := by norm_num
    rw [formatFixed1, if_neg (by norm_num), formatFixed1Abs]
    rw [h]
    decide
  refine ⟨by decide, ?_, ?_⟩
  · show pyReplace (pyReplace "aa".data "a".data (formatFixed1 1)) "aa".data
        (formatFixed1 2) = "1.01.0".data
    rw [h1, h2]
    decide
  · show occursIn (formatFixed1 2)
        (pyReplace (pyReplace "aa".data "a".data (formatFixed1 1)) "aa".data
          (formatFixed1 2)) = false
    rw [h1, h2]
    decide
